import Mathlib

/-!
Verification of the GAIA live-metrics refresh pipeline: the text-metric
extractor (`extractNumber` in `metricsService.ts`), the snapshot assembly
(`fetchLiveMetrics`), the per-view pollers (`MetricsHero`,
`SustainabilityScore`), the chat-path gateway clients (`callAgent` in
`FloatingChat` / `IntegratedChat`, `invokeClimateAgent` in
`climateAgentService.ts`), and the server-side response-cache contract.

JavaScript numbers are modelled as rationals plus the special values NaN and
±Infinity; the texts handled here only involve values exactly representable
in binary64, so the rational model is faithful.
-/

namespace Gaia

/-- A JavaScript number: a finite value (modelled as a rational), NaN, or a
signed infinity. -/
inductive JSNum where
  | num (q : ℚ)
  | nan
  | inf (pos : Bool)
deriving DecidableEq, Repr

/-- JavaScript truthiness of a number: `0`, `-0` and `NaN` are falsy. -/
def JSNum.truthy : JSNum → Bool
  | .num q => q ≠ 0
  | .nan => false
  | .inf _ => true

/-- JavaScript `x || d` for a number `x` and numeric default `d`. -/
def JSNum.orDefault (x : JSNum) (d : ℚ) : JSNum :=
  if x.truthy then x else .num d

/-! ### JavaScript `parseFloat` -/

def isWsChar (c : Char) : Bool :=
  c = ' ' ∨ c = '\t' ∨ c = '\n' ∨ c = '\r'

def isDigitChar (c : Char) : Bool :=
  '0' ≤ c ∧ c ≤ '9'

def digitVal (c : Char) : ℕ := c.toNat - '0'.toNat

/-- Split a character list into its maximal digit prefix and the rest. -/
def takeDigits : List Char → List Char × List Char
  | [] => ([], [])
  | c :: cs =>
    if isDigitChar c then
      let (ds, rest) := takeDigits cs
      (c :: ds, rest)
    else ([], c :: cs)

def digitsToNat (ds : List Char) : ℕ :=
  ds.foldl (fun acc c => 10 * acc + digitVal c) 0

/-- Parse an optional exponent part `[eE][+-]?digits`; yields the exponent, or
`0` when the exponent part is absent or malformed (JavaScript then simply
stops consuming input, leaving the mantissa value unchanged). -/
def parseExp (cs : List Char) : ℤ :=
  match cs with
  | c :: rest =>
    if c = 'e' ∨ c = 'E' then
      let (sgn, rest') :=
        match rest with
        | '-' :: t => ((-1 : ℤ), t)
        | '+' :: t => ((1 : ℤ), t)
        | t => ((1 : ℤ), t)
      let (ds, _) := takeDigits rest'
      if ds = [] then 0 else sgn * (digitsToNat ds : ℤ)
    else 0
  | [] => 0

/-- JavaScript `parseFloat` on a character list: skip leading whitespace, an
optional sign, then `Infinity` or `digits [. digits] [exponent]`; `NaN` when no
digit is consumed.  The value `I.F × 10^e` (integer part `I`, fraction digits
`F`) is assembled as a single rational `(I·10^|F| + F)·10^e / 10^|F|`. -/
def jsParseFloat (cs : List Char) : JSNum :=
  let cs₁ := cs.dropWhile isWsChar
  let (sgn, cs₂) :=
    match cs₁ with
    | '-' :: t => (false, t)
    | '+' :: t => (true, t)
    | t => (true, t)
  if ('I' :: 'n' :: 'f' :: 'i' :: 'n' :: 'i' :: 't' :: 'y' :: []).isPrefixOf cs₂ then
    .inf sgn
  else
    let (ip, cs₃) := takeDigits cs₂
    let (fp, cs₄) :=
      match cs₃ with
      | '.' :: t => takeDigits t
      | t => ([], t)
    if ip = [] ∧ fp = [] then .nan
    else
      let mant : ℕ := digitsToNat ip * 10 ^ fp.length + digitsToNat fp
      let smant : ℤ := if sgn then (mant : ℤ) else -(mant : ℤ)
      let v : ℚ :=
        match parseExp cs₄ with
        | .ofNat k => Rat.divInt (smant * (10 ^ k : ℕ)) ((10 ^ fp.length : ℕ) : ℤ)
        | .negSucc k => Rat.divInt smant (((10 ^ fp.length : ℕ) : ℤ) * ((10 ^ (k + 1) : ℕ) : ℤ))
      .num v

/-! ### Regular expressions

A small regex language covering exactly the constructs used by the source's
patterns: single characters, character classes, `\d`, `\s`, `.`, greedy `*`,
`+`, `?` over single-character atoms, and one capture group.  Matching follows
JavaScript `String.prototype.match` without the `g` flag: leftmost match wins,
and within a position alternatives are tried in backtracking priority order
(greedy quantifiers prefer longer matches). -/

inductive Atom where
  | lit (c : Char)
  | cls (s : List Char)
  | digit
  | space
  | dot
deriving DecidableEq, Repr

def Atom.matchesChar : Atom → Char → Bool
  | .lit c, c' => c = c'
  | .cls s, c' => s.contains c'
  | .digit, c' => isDigitChar c'
  | .space, c' => isWsChar c'
  | .dot, c' => c' ≠ '\n' ∧ c' ≠ '\r'

inductive Regex where
  | eps
  | atom (a : Atom)
  | seq (r s : Regex)
  | star (a : Atom)
  | plus (a : Atom)
  | opt (a : Atom)
  | group (r : Regex)
deriving DecidableEq, Repr

/-- All ways a greedy `a*` can match a prefix of the input, longest first:
each result is `(rest, consumed)`. -/
def starRun (a : Atom) : List Char → List (List Char × List Char)
  | [] => [([], [])]
  | c :: cs =>
    if a.matchesChar c then
      ((starRun a cs).map fun p => (p.1, c :: p.2)) ++ [(c :: cs, [])]
    else [(c :: cs, [])]

/-- All ways `r` can match a prefix of the input, in backtracking priority
order: each result is `(rest, consumed, capture-of-group-1)`. -/
def Regex.run : Regex → List Char → List (List Char × List Char × Option (List Char))
  | .eps, cs => [(cs, [], none)]
  | .atom _, [] => []
  | .atom a, c :: cs => if a.matchesChar c then [(cs, [c], none)] else []
  | .seq r s, cs =>
    (r.run cs).flatMap fun p =>
      (s.run p.1).map fun q => (q.1, p.2.1 ++ q.2.1, p.2.2 <|> q.2.2)
  | .star a, cs => (starRun a cs).map fun p => (p.1, p.2, none)
  | .plus a, cs =>
    match cs with
    | [] => []
    | c :: cs' =>
      if a.matchesChar c then
        (starRun a cs').map fun p => (p.1, c :: p.2, none)
      else []
  | .opt a, cs =>
    match cs with
    | [] => [([], [], none)]
    | c :: cs' =>
      if a.matchesChar c then [(cs', [c], none), (c :: cs', [], none)]
      else [(c :: cs', [], none)]
  | .group r, cs => (r.run cs).map fun p => (p.1, p.2.1, some p.2.1)

/-- JavaScript `text.match(regex)` (no `g` flag): try each start position left
to right, return `(match[0], match[1])` of the first position that matches;
`match[1]` is `none` when group 1 did not participate. -/
def findMatch (r : Regex) : List Char → Option (List Char × Option (List Char))
  | [] =>
    match r.run [] with
    | p :: _ => some (p.2.1, p.2.2)
    | [] => none
  | c :: cs' =>
    match r.run (c :: cs') with
    | p :: _ => some (p.2.1, p.2.2)
    | [] => findMatch r cs'

/-- `extractNumber` from `metricsService.ts`:
`const match = text.match(regex); return match ? parseFloat(match[1]) : 0;`.
When group 1 did not participate, `match[1]` is `undefined` and
`parseFloat(undefined)` coerces it to the string `"undefined"`. -/
def extractNumber (text : List Char) (r : Regex) : JSNum :=
  match findMatch r text with
  | none => .num 0
  | some (_, some g) => jsParseFloat g
  | some (_, none) => jsParseFloat "undefined".data

/-! ### The regex patterns of `fetchLiveMetrics`

Case-insensitive letters (`/i` flag) are desugared to two-character classes;
`\s` is the whitespace atom, `.` the dot atom. -/

/-- A letter under the `/i` flag: matches both cases. -/
def ciChar (c : Char) : Atom := .cls [c.toLower, c.toUpper]

/-- Concatenate a list of regexes. -/
def rcat (rs : List Regex) : Regex := rs.foldr .seq .eps

/-- A case-insensitive literal word. -/
def ciWord (s : List Char) : Regex := rcat (s.map fun c => .atom (ciChar c))

/-- `/\$(\d+\.?\d*)/` -/
def patDollar : Regex :=
  .seq (.atom (.lit '$'))
    (.group (rcat [.plus .digit, .opt (.lit '.'), .star .digit]))

/-- `/(\d+)\s*kg\s*CO[₂2]/i` -/
def patCarbon : Regex :=
  rcat [.group (.plus .digit), .star .space, ciWord ['k', 'g'], .star .space,
    ciWord ['c', 'o'], .atom (.cls ['₂', '2'])]

/-- `/(\d+)%.*efficiency/i` -/
def patEff : Regex :=
  rcat [.group (.plus .digit), .atom (.lit '%'), .star .dot,
    ciWord "efficiency".data]

/-- `/(\d+\.?\d*)[°℃]C/` -/
def patTemp : Regex :=
  rcat [.group (rcat [.plus .digit, .opt (.lit '.'), .star .digit]),
    .atom (.cls ['°', '℃']), .atom (.lit 'C')]

/-- `/(\d+)\s*W\/m/` -/
def patSolar : Regex :=
  rcat [.group (.plus .digit), .star .space, .atom (.lit 'W'),
    .atom (.lit '/'), .atom (.lit 'm')]

/-- `/\$(\d+)\/MWh/` -/
def patPrice : Regex :=
  rcat [.atom (.lit '$'), .group (.plus .digit), .atom (.lit '/'),
    .atom (.lit 'M'), .atom (.lit 'W'), .atom (.lit 'h')]

/-- `/(\d+)%.*renewable/i` -/
def patRenew : Regex :=
  rcat [.group (.plus .digit), .atom (.lit '%'), .star .dot,
    ciWord "renewable".data]

/-! ### The live-metrics snapshot and `fetchLiveMetrics` -/

/-- The `LiveMetrics` interface of `metricsService.ts`. -/
structure LiveMetrics where
  costSavingsToday : JSNum
  carbonReduced : JSNum
  efficiencyGain : JSNum
  temperature : JSNum
  solarIrradiance : JSNum
  energyPrice : JSNum
  renewablePct : JSNum
  sustainabilityScore : JSNum
deriving DecidableEq, Repr

/-- Structured data a backend reply may carry (`json.data`); only the field
relevant to the claims is modelled. -/
structure StructuredData where
  cost_savings : Option ℚ
deriving DecidableEq, Repr

/-- The JSON body of a `/api/invocations` reply, as read by the frontend:
`json.response`, `json.status`, `json.message`, `json.data`; each key may be
absent. -/
structure JSONReply where
  response : Option (List Char) := none
  status : Option (List Char) := none
  message : Option (List Char) := none
  data : Option StructuredData := none
deriving DecidableEq, Repr

/-- Outcome of one `fetch('/api/invocations', …)` round-trip as observed by
`fetchLiveMetrics`: either an exception is thrown somewhere in the `try` block
(network failure, or a body that is not JSON making `response.json()` throw),
or a JSON body is obtained.  The HTTP status is irrelevant here: the code
never reads `response.ok`, so a non-2xx reply with a JSON body also lands in
the `ok` case. -/
inductive FetchOutcome where
  | throws
  | ok (reply : JSONReply)
deriving DecidableEq, Repr

/-- JavaScript `json.response || ''`. -/
def jsOrEmpty : Option (List Char) → List Char
  | none => []
  | some s => s

/-- The fallback snapshot returned by the `catch` branch of
`fetchLiveMetrics`. -/
def fallbackMetrics : LiveMetrics where
  costSavingsToday := .num (Rat.divInt 171 2)
  carbonReduced := .num 180
  efficiencyGain := .num 12
  temperature := .num 24
  solarIrradiance := .num 300
  energyPrice := .num 65
  renewablePct := .num 55
  sustainabilityScore := .num 87

/-- `fetchLiveMetrics` from `metricsService.ts`: on a JSON reply, extract every
field from the response text (`json.data` is never read); on a thrown error,
return the fallback constants.  `extractNumber(...) || 12` for the efficiency
field is JavaScript `||` on a number. -/
def fetchLiveMetrics : FetchOutcome → LiveMetrics
  | .throws => fallbackMetrics
  | .ok reply =>
    let text := jsOrEmpty reply.response
    { costSavingsToday := extractNumber text patDollar
      carbonReduced := extractNumber text patCarbon
      efficiencyGain := (extractNumber text patEff).orDefault 12
      temperature := extractNumber text patTemp
      solarIrradiance := extractNumber text patSolar
      energyPrice := extractNumber text patPrice
      renewablePct := extractNumber text patRenew
      sustainabilityScore := .num 87 }

/-! ### The `MetricsHero` poller -/

/-- The initial `useState` snapshot of `MetricsHero` (all fields 0). -/
def initialMetrics : LiveMetrics where
  costSavingsToday := .num 0
  carbonReduced := .num 0
  efficiencyGain := .num 0
  temperature := .num 0
  solarIrradiance := .num 0
  energyPrice := .num 0
  renewablePct := .num 0
  sustainabilityScore := .num 0

/-- One poller update: `fetchLiveMetrics().then(setMetrics)` replaces the
snapshot wholesale with the fetched result; the previous snapshot is not
consulted. -/
def pollerStep (_prev : LiveMetrics) (o : FetchOutcome) : LiveMetrics :=
  fetchLiveMetrics o

/-- The snapshot exposed by the poller after a sequence of fetch outcomes,
starting from the initial all-zero state. -/
def pollerExposed (outcomes : List FetchOutcome) : LiveMetrics :=
  outcomes.foldl pollerStep initialMetrics

/-! ### Field presence: the snapshot as a JavaScript object

To state that no field of the assembled snapshot is ever absent or
`undefined`, the object literal is modelled as a map from field names to
JavaScript values. -/

inductive Field where
  | costSavingsToday | carbonReduced | efficiencyGain | temperature
  | solarIrradiance | energyPrice | renewablePct | sustainabilityScore
deriving DecidableEq, Repr

/-- A JavaScript property value: `undefined` or a number (the snapshot only
ever holds numbers). -/
inductive JSValue where
  | undef
  | numv (n : JSNum)
deriving DecidableEq, Repr

/-- The snapshot object: property lookup on the object literal that
`fetchLiveMetrics` returns (every branch writes all eight keys). -/
def LiveMetrics.prop (m : LiveMetrics) : Field → JSValue
  | .costSavingsToday => .numv m.costSavingsToday
  | .carbonReduced => .numv m.carbonReduced
  | .efficiencyGain => .numv m.efficiencyGain
  | .temperature => .numv m.temperature
  | .solarIrradiance => .numv m.solarIrradiance
  | .energyPrice => .numv m.energyPrice
  | .renewablePct => .numv m.renewablePct
  | .sustainabilityScore => .numv m.sustainabilityScore

/-! ### Chat-path gateway clients

`callAgent` in `FloatingChat.tsx` / `IntegratedChat.tsx`, and
`invokeClimateAgent` in `climateAgentService.ts`.  Each is modelled as its
`try`-block body (an `Except` value: `.error` means a JavaScript exception is
propagating) followed by its `catch` handler. -/

/-- A JavaScript exception relevant to these functions. -/
inductive JSError where
  | networkError
  | jsonParseError
  | invocationFailed (statusText : List Char)
deriving DecidableEq, Repr

/-- Outcome of one `fetch` round-trip: the promise rejects, or a response
arrives with an HTTP-ok flag, a status text, and a body (`none` when the body
is not JSON, so `response.json()` throws). -/
inductive FetchResult where
  | netFail
  | resp (ok : Bool) (statusText : List Char) (body : Option JSONReply)
deriving DecidableEq, Repr

/-- Template interpolation of a possibly-absent string: `undefined` renders as
the text `undefined`. -/
def jsStringOfOpt : Option (List Char) → List Char
  | none => "undefined".data
  | some s => s

/-- JavaScript `s || d` for an optional string `s` (absent and empty are both
falsy). -/
def jsOrDefaultStr (s : Option (List Char)) (d : List Char) : List Char :=
  match s with
  | none => d
  | some t => if t = [] then d else t

/-- Result of `callAgent` in `FloatingChat.tsx`: `{ text, data? }`. -/
structure ChatResult where
  text : List Char
  data : Option StructuredData := none
deriving DecidableEq, Repr

/-- The `try` block of `callAgent` in `FloatingChat.tsx`: `response.ok` is
never consulted; a backend-reported `status === 'error'` yields a `⚠️` text
from `json.message`; otherwise `json.response || 'No response'` plus
`json.data`. -/
def callAgentFloatingBody : FetchResult → Except JSError ChatResult
  | .netFail => .error .networkError
  | .resp _ _ none => .error .jsonParseError
  | .resp _ _ (some j) =>
    if j.status = some "error".data then
      .ok { text := "⚠️ ".data ++ jsStringOfOpt j.message }
    else
      .ok { text := jsOrDefaultStr j.response "No response".data, data := j.data }

/-- `callAgent` in `FloatingChat.tsx` with its `catch` handler, which turns
any thrown error into a returned `❌` text. -/
def callAgentFloating (o : FetchResult) : Except JSError ChatResult :=
  match callAgentFloatingBody o with
  | .error _ => .ok { text := "❌ Error connecting to agent".data }
  | .ok r => .ok r

/-- The `try` block of `callAgent` in `IntegratedChat.tsx` (returns a plain
string). -/
def callAgentIntegratedBody : FetchResult → Except JSError (List Char)
  | .netFail => .error .networkError
  | .resp _ _ none => .error .jsonParseError
  | .resp _ _ (some j) =>
    if j.status = some "error".data then
      .ok ("⚠️ ".data ++ jsStringOfOpt j.message)
    else
      .ok (jsOrDefaultStr j.response "No response".data)

/-- `callAgent` in `IntegratedChat.tsx` with its `catch` handler. -/
def callAgentIntegrated (o : FetchResult) : Except JSError (List Char) :=
  match callAgentIntegratedBody o with
  | .error _ => .ok "❌ Error connecting to agent".data
  | .ok r => .ok r

/-- `invokeClimateAgent` in `climateAgentService.ts`: a non-ok HTTP status
throws `Agent invocation failed: ${statusText}`, and the `catch` handler logs
and RETHROWS the error, so every failure propagates to the caller as an
exception. -/
def invokeClimateAgent : FetchResult → Except JSError JSONReply
  | .netFail => .error .networkError
  | .resp ok st body =>
    if ok then
      match body with
      | none => .error .jsonParseError
      | some j => .ok j
    else .error (.invocationFailed st)

/-! ### Poller lifecycle (`MetricsHero`, `SustainabilityScore`)

One component instance: `useEffect` starts an initial fetch and an interval;
the cleanup returned by the effect runs `clearInterval` at teardown.  A
resolving promise calls the React state setter; React discards state updates
addressed to an unmounted component instance, so a result that arrives after
teardown is not applied and nothing is observed. -/

structure PollerInstance where
  mounted : Bool
  timerActive : Bool
  metrics : LiveMetrics
  isLoading : Bool
deriving DecidableEq, Repr

/-- Events in the life of one poller instance: an interval tick (issues a
fetch only while the timer is active), the resolution of the initial or of a
refresh fetch, and teardown of the owning view. -/
inductive PollerEvent where
  | tick
  | resolveInitial (o : FetchOutcome)
  | resolveRefresh (o : FetchOutcome)
  | teardown
deriving DecidableEq, Repr

/-- One event step; the boolean records whether this step issued a fetch. -/
def pollerEventStep (s : PollerInstance) : PollerEvent → PollerInstance × Bool
  | .tick => if s.timerActive then (s, true) else (s, false)
  | .resolveInitial o =>
    (if s.mounted then { s with metrics := fetchLiveMetrics o, isLoading := false } else s,
      false)
  | .resolveRefresh o =>
    (if s.mounted then { s with metrics := fetchLiveMetrics o } else s, false)
  | .teardown => ({ s with mounted := false, timerActive := false }, false)

/-- Run a list of events; the boolean records whether any step issued a
fetch. -/
def pollerEventRun (s : PollerInstance) : List PollerEvent → PollerInstance × Bool
  | [] => (s, false)
  | e :: es =>
    let p := pollerEventStep s e
    let q := pollerEventRun p.1 es
    (q.1, p.2 || q.2)

/-! ### Response-cache contract (server side) -/

/-- Modelled from the spec: the server-side response cache (`CachedReply`,
§3/§4.4) is implemented in the backend runtime (`climate_runtime.py`), which
is not part of the frontend sources; its contract is modelled here.  An entry
is keyed by the verbatim prompt, holds `{responseText, structuredData,
timestamp}`, and is valid while `now - timestamp < TTL` (5 minutes); the
cache is capped at 100 entries with eviction of the oldest. -/
structure CachedReply where
  responseText : List Char
  structuredData : Option StructuredData
  timestamp : ℕ
deriving DecidableEq, Repr

/-- Modelled from the spec: cache TTL, 5 minutes (in seconds). -/
def cacheTTL : ℕ := 300

/-- Modelled from the spec: cache capacity, 100 entries. -/
def cacheCapacity : ℕ := 100

/-- Modelled from the spec: the cache as a list of keyed entries, oldest
first. -/
structure ResponseCache where
  entries : List (List Char × CachedReply)
deriving DecidableEq, Repr

/-- Look up the entry for a prompt. -/
def cacheLookup (c : ResponseCache) (p : List Char) : Option CachedReply :=
  (c.entries.find? fun e => e.1 = p).map (·.2)

/-- An entry is fresh while `now - timestamp < TTL`. -/
def cacheFresh (now : ℕ) (e : CachedReply) : Bool :=
  now - e.timestamp < cacheTTL

/-- A gateway reply: the structured/text payload the poller consumes. -/
structure GatewayReply where
  responseText : List Char
  structuredData : Option StructuredData
deriving DecidableEq, Repr

/-- Modelled from the spec: record a reply under a prompt, evicting the
oldest entry when the capacity is exceeded. -/
def cacheInsert (c : ResponseCache) (p : List Char) (r : GatewayReply) (now : ℕ) :
    ResponseCache :=
  let es := c.entries ++ [(p, ⟨r.responseText, r.structuredData, now⟩)]
  ⟨if cacheCapacity < es.length then es.tail else es⟩

/-- Modelled from the spec: one gateway invocation against the cache — a
fresh hit answers from the cache; otherwise the reasoning backend is invoked
and the reply recorded. -/
def gatewayInvoke (backend : List Char → GatewayReply) (c : ResponseCache)
    (now : ℕ) (p : List Char) : GatewayReply × ResponseCache :=
  match cacheLookup c p with
  | some e =>
    if cacheFresh now e then (⟨e.responseText, e.structuredData⟩, c)
    else
      let r := backend p
      (r, cacheInsert c p r now)
  | none =>
    let r := backend p
    (r, cacheInsert c p r now)

/-- A stable backend: every cache entry agrees with what the backend returns
for its prompt (holds of any cache populated only through `gatewayInvoke`
against that backend). -/
def cacheCoherent (backend : List Char → GatewayReply) (c : ResponseCache) : Prop :=
  ∀ x ∈ c.entries, GatewayReply.mk x.2.responseText x.2.structuredData = backend x.1

/-! ### Concrete replies used in the claim theorems -/

/-- A JSON reply whose text yields `costSavingsToday = 100`. -/
def replyGood : JSONReply := { response := some "Saved $100.00 today".data }

/-- A successful reply whose text matches no dollar pattern. -/
def replyNoMatch : JSONReply := { response := some "all systems nominal".data }

/-- A reply carrying both structured `cost_savings = 42` and text `$99`. -/
def replyBoth : JSONReply :=
  { response := some "cost $99".data, data := some { cost_savings := some 42 } }

/-- The same reply as `replyBoth` but without its structured data. -/
def replyTextOnly : JSONReply := { response := some "cost $99".data }

/-- A backend-reported error reply. -/
def replyError : JSONReply :=
  { status := some "error".data, message := some "model unavailable".data }

/-! ## Supporting lemmas -/

theorem cacheCoherent_lookup {backend : List Char → GatewayReply} {c : ResponseCache}
    {p : List Char} {e : CachedReply} (h : cacheCoherent backend c)
    (hl : cacheLookup c p = some e) :
    GatewayReply.mk e.responseText e.structuredData = backend p := by
  unfold cacheLookup at hl
  rcases hfind : c.entries.find? fun x => x.1 = p with _ | a
  · rw [hfind] at hl; cases hl
  · rw [hfind] at hl
    obtain rfl : a.2 = e := by simpa using hl
    have hmem := List.mem_of_find?_eq_some hfind
    have hpred : a.1 = p := by simpa using List.find?_some hfind
    rw [← hpred]
    exact h a hmem

theorem mem_cacheInsert {c : ResponseCache} {p : List Char} {r : GatewayReply}
    {now : ℕ} {x : List Char × CachedReply}
    (hx : x ∈ (cacheInsert c p r now).entries) :
    x ∈ c.entries ∨ x = (p, ⟨r.responseText, r.structuredData, now⟩) := by
  simp only [cacheInsert] at hx
  split at hx
  · have := List.tail_subset _ hx
    simpa using this
  · simpa using hx

theorem cacheCoherent_insert {backend : List Char → GatewayReply} {c : ResponseCache}
    {now : ℕ} {p : List Char} (h : cacheCoherent backend c) :
    cacheCoherent backend (cacheInsert c p (backend p) now) := by
  intro x hx
  rcases mem_cacheInsert hx with hc | rfl
  · exact h x hc
  · rfl

theorem gatewayInvoke_fst (backend : List Char → GatewayReply) (c : ResponseCache)
    (now : ℕ) (p : List Char) (h : cacheCoherent backend c) :
    (gatewayInvoke backend c now p).1 = backend p := by
  unfold gatewayInvoke
  cases hl : cacheLookup c p with
  | none => simp
  | some e =>
    have he := cacheCoherent_lookup h hl
    by_cases hf : cacheFresh now e = true
    · simp [hf, ← he]
    · simp [hf]

theorem gatewayInvoke_coherent (backend : List Char → GatewayReply) (c : ResponseCache)
    (now : ℕ) (p : List Char) (h : cacheCoherent backend c) :
    cacheCoherent backend (gatewayInvoke backend c now p).2 := by
  unfold gatewayInvoke
  cases hl : cacheLookup c p with
  | none => exact cacheCoherent_insert h
  | some e =>
    by_cases hf : cacheFresh now e = true
    · simpa [hf] using h
    · simpa [hf] using @cacheCoherent_insert backend c now p h

theorem pollerEventRun_dead (es : List PollerEvent) (s : PollerInstance)
    (hm : s.mounted = false) (ht : s.timerActive = false) :
    pollerEventRun s es = (s, false) := by
  induction es generalizing s with
  | nil => rfl
  | cons e es ih =>
    obtain ⟨sm, sti, mets, il⟩ := s
    simp only at hm ht
    subst hm; subst ht
    cases e <;> simp [pollerEventRun, pollerEventStep, ih]

/-! ## Claims -/

/-- C1 (corrected), counterexample to the claim as stated: after a successful
fetch whose text yields a snapshot S (here with `costSavingsToday = 100`), a
subsequent failed fetch does NOT leave the exposed snapshot equal to S — the
poller exposes the fallback constants instead. -/
theorem failed_fetch_changes_snapshot_cex :
    pollerExposed [.ok replyGood, .throws] ≠ pollerExposed [.ok replyGood] := by
  decide

/-- C1 (amended): after any history of fetch outcomes, a failed fetch replaces
the exposed snapshot wholesale with the fixed fallback constants
(85.50, 180, 12, 24, 300, 65, 55, 87); no data from the error result is
merged, but the last snapshot is not kept either. -/
theorem failed_fetch_yields_fallback (outcomes : List FetchOutcome) :
    pollerExposed (outcomes ++ [.throws]) = fallbackMetrics := by
  simp [pollerExposed, List.foldl_append, pollerStep, fetchLiveMetrics]

/-- C2 (confirmed): for every fetch outcome and for every sequence of fetch
outcomes, the snapshot produced by `fetchLiveMetrics` and the snapshot exposed
by the poller have all eight fields present as numbers — no property is ever
absent or `undefined`. -/
theorem snapshot_fields_always_present :
    (∀ o f, ∃ n, (fetchLiveMetrics o).prop f = .numv n)
    ∧ ∀ outcomes f, ∃ n, (pollerExposed outcomes).prop f = .numv n := by
  constructor
  · intro o f; cases f <;> exact ⟨_, rfl⟩
  · intro outcomes f; cases f <;> exact ⟨_, rfl⟩

/-- C3 (corrected), counterexample to the claim as stated: given structured
`data.cost_savings = 42` and response text containing `$99`, the assembled
snapshot's cost-savings field is `99`, not `42` — `fetchLiveMetrics` never
reads `json.data`. -/
theorem structured_data_precedence_cex :
    (fetchLiveMetrics (.ok replyBoth)).costSavingsToday = .num 99
    ∧ (fetchLiveMetrics (.ok replyBoth)).costSavingsToday ≠ .num 42 := by
  decide

/-- C3 (amended): the snapshot assembled by `fetchLiveMetrics` depends only on
the response text; structured data never takes precedence because it is never
consulted — two replies with the same `response` field yield identical
snapshots whatever their `data` fields. -/
theorem fetchLiveMetrics_ignores_structured_data (r₁ r₂ : JSONReply)
    (h : r₁.response = r₂.response) :
    fetchLiveMetrics (.ok r₁) = fetchLiveMetrics (.ok r₂) := by
  simp [fetchLiveMetrics, h]

/-- Witness for C3's amended theorem at a concrete input: a reply carrying
`data.cost_savings = 42` assembles the same snapshot as one carrying no
structured data at all. -/
theorem fetchLiveMetrics_ignores_structured_data_witness :
    fetchLiveMetrics (.ok replyBoth) = fetchLiveMetrics (.ok replyTextOnly) :=
  fetchLiveMetrics_ignores_structured_data _ _ rfl

/-- C4 (confirmed): `extractNumber` returns the first capture group of the
first match parsed as a floating-point number and `0` when the pattern does
not match; concretely `extract("Saved $85.50 today", /\$(\d+\.?\d*)/) = 85.5`
and `extract("no numbers here", /\$(\d+\.?\d*)/) = 0`. -/
theorem extractNumber_contract :
    extractNumber "Saved $85.50 today".data patDollar = .num (Rat.divInt 171 2)
    ∧ extractNumber "no numbers here".data patDollar = .num 0
    ∧ (∀ t r, findMatch r t = none → extractNumber t r = .num 0)
    ∧ ∀ t r m g, findMatch r t = some (m, some g) →
        extractNumber t r = jsParseFloat g := by
  refine ⟨by decide, by decide, ?_, ?_⟩
  · intro t r h; simp [extractNumber, h]
  · intro t r m g h; simp [extractNumber, h]

/-- Witness for C4 at a concrete input: a text the dollar pattern does not
match extracts to `0`. -/
theorem extractNumber_contract_witness :
    extractNumber "abc".data patDollar = .num 0 :=
  extractNumber_contract.2.2.1 "abc".data patDollar (by decide)

/-- C5 (code bug): in the polling path, a successful fetch whose text does not
match a field's pattern overwrites the previously-good value with `0` — here
a good `costSavingsToday = 100` is replaced by `0` on the next successful
fetch, where the claim (and spec §7) requires the previous value to be
retained. -/
theorem extraction_no_match_overwrites :
    (pollerExposed [.ok replyGood]).costSavingsToday = .num 100
    ∧ (pollerExposed [.ok replyGood, .ok replyNoMatch]).costSavingsToday = .num 0 := by
  exact ⟨by decide, by decide⟩

/-- C6 (corrected), counterexample to the claim as stated: `invokeClimateAgent`
DOES throw to its caller — a network failure propagates out as an exception
because its `catch` handler rethrows. -/
theorem invokeClimateAgent_throws_cex :
    invokeClimateAgent .netFail = .error .networkError := rfl

/-- C6 (amended): the chat-path `callAgent` functions never throw — network
failure, a non-JSON body and a backend-reported `status = "error"` all
collapse to a returned result with a short explanatory text — but
`invokeClimateAgent` propagates network failure as a thrown exception and
throws on every non-2xx HTTP status. -/
theorem gateway_error_contract :
    (∀ o, ∃ r, callAgentFloating o = .ok r)
    ∧ (∀ o, ∃ t, callAgentIntegrated o = .ok t)
    ∧ (∀ ok st j, j.status = some "error".data →
        callAgentFloating (.resp ok st (some j))
          = .ok { text := "⚠️ ".data ++ jsStringOfOpt j.message })
    ∧ (∀ st b, invokeClimateAgent (.resp false st b) = .error (.invocationFailed st))
    ∧ invokeClimateAgent .netFail = .error .networkError := by
  refine ⟨?_, ?_, ?_, fun st b => rfl, rfl⟩
  · intro o
    cases o with
    | netFail => exact ⟨_, rfl⟩
    | resp ok st body =>
      cases body with
      | none => exact ⟨_, rfl⟩
      | some j =>
        by_cases h : j.status = some "error".data
        · have he : callAgentFloating (.resp ok st (some j))
              = .ok { text := "⚠️ ".data ++ jsStringOfOpt j.message } := by
            simp [callAgentFloating, callAgentFloatingBody, h]
          exact ⟨_, he⟩
        · have he : callAgentFloating (.resp ok st (some j))
              = .ok { text := jsOrDefaultStr j.response "No response".data
                      data := j.data } := by
            simp [callAgentFloating, callAgentFloatingBody, h]
          exact ⟨_, he⟩
  · intro o
    cases o with
    | netFail => exact ⟨_, rfl⟩
    | resp ok st body =>
      cases body with
      | none => exact ⟨_, rfl⟩
      | some j =>
        by_cases h : j.status = some "error".data
        · have he : callAgentIntegrated (.resp ok st (some j))
              = .ok ("⚠️ ".data ++ jsStringOfOpt j.message) := by
            simp [callAgentIntegrated, callAgentIntegratedBody, h]
          exact ⟨_, he⟩
        · have he : callAgentIntegrated (.resp ok st (some j))
              = .ok (jsOrDefaultStr j.response "No response".data) := by
            simp [callAgentIntegrated, callAgentIntegratedBody, h]
          exact ⟨_, he⟩
  · intro ok st j h
    simp [callAgentFloating, callAgentFloatingBody, h]

/-- Witness for C6's amended theorem at a concrete input: a backend-reported
error surfaces as a `⚠️` message text. -/
theorem gateway_error_contract_witness :
    callAgentFloating (.resp true [] (some replyError))
      = .ok { text := "⚠️ ".data ++ jsStringOfOpt replyError.message } :=
  gateway_error_contract.2.2.1 true [] replyError rfl

/-- C7 (confirmed): after teardown of the owning view, a poller instance
issues no further fetches (the teardown step clears its timer), and no later
event — including the resolution of a fetch that was in flight at teardown —
changes its snapshot or is observed: the resolved result is discarded, not
applied. -/
theorem poller_teardown_safety (s : PollerInstance) (es : List PollerEvent) :
    pollerEventRun (pollerEventStep s .teardown).1 es
      = ((pollerEventStep s .teardown).1, false)
    ∧ (pollerEventStep s .teardown).1.metrics = s.metrics
    ∧ (pollerEventStep s .teardown).2 = false :=
  ⟨pollerEventRun_dead es _ rfl rfl, rfl, rfl⟩

/-- C8 (confirmed, modelled from the spec): invoking the gateway twice with
the identical prompt within the TTL window yields identical structured/text
results, given a stable backend (every cache entry agrees with the backend,
as holds of any cache populated through `gatewayInvoke`). -/
theorem gateway_cache_idempotent (backend : List Char → GatewayReply)
    (c : ResponseCache) (p : List Char) (now₁ now₂ : ℕ)
    (h : cacheCoherent backend c) (_h₁ : now₁ ≤ now₂)
    (_h₂ : now₂ - now₁ < cacheTTL) :
    (gatewayInvoke backend (gatewayInvoke backend c now₁ p).2 now₂ p).1
      = (gatewayInvoke backend c now₁ p).1 := by
  rw [gatewayInvoke_fst _ _ _ _ h,
    gatewayInvoke_fst _ _ _ _ (gatewayInvoke_coherent _ _ _ _ h)]

/-- Witness for C8 at a concrete input: a fixed backend, the empty cache, and
two invocations 100 seconds apart return the same reply. -/
theorem gateway_cache_idempotent_witness :
    (gatewayInvoke (fun _ => ⟨"ok".data, none⟩)
        (gatewayInvoke (fun _ => ⟨"ok".data, none⟩) ⟨[]⟩ 0 "metrics".data).2
        100 "metrics".data).1
      = (gatewayInvoke (fun _ => ⟨"ok".data, none⟩) ⟨[]⟩ 0 "metrics".data).1 :=
  gateway_cache_idempotent _ _ _ _ _ (by intro x hx; cases hx) (by decide) (by decide)

/-- C9 (confirmed): for every fetch outcome the `sustainabilityScore` field of
the snapshot returned by `fetchLiveMetrics` is the constant 87 — the success
branch hardcodes it and the failure branch's fallback is also 87. -/
theorem sustainabilityScore_constant (o : FetchOutcome) :
    (fetchLiveMetrics o).sustainabilityScore = .num 87 := by
  cases o <;> rfl

/-- C10 (confirmed): `extractNumber` can return NaN — when the pattern matches
but has no capture group (`match[1]` is `undefined`, and
`parseFloat(undefined)` is NaN), and when the capture group matches the empty
string (`parseFloat("")` is NaN). -/
theorem extractNumber_nan_cases :
    extractNumber "x12".data (.plus .digit) = .nan
    ∧ extractNumber "$x".data
        (.seq (.atom (.lit '$')) (.group (.star .digit))) = .nan := by
  exact ⟨by decide, by decide⟩

end Gaia
